import Mathlib

/-!
Shallow embedding of the rPPG measurement-session simulation in
`src/lib/presage.ts` and the status-mapping helpers in
`src/components/emi/VitalMonitor.tsx`.

Real-valued quantities (JS numbers) are modelled as rationals.  Calls to
`Math.random()` are modelled as explicit rational parameters `u` with the
contract `0 ≤ u < 1`; the call to `Math.sin` inside `generateVitals` is
modelled by an explicit function parameter `sinQ : ℚ → ℚ`.  `Math.round`
and `Math.floor` become `jsRound` and `Int.floor`.  The wall-clock
`timestamp : Date` field of a vitals reading is omitted: no claim
mentions it.
-/

/-- JavaScript Math.round: rounds half toward positive infinity. -/
def jsRound (q : ℚ) : ℤ := ⌊q + 1/2⌋

/-- Type MeasurementState from presage.ts. -/
inductive MeasurementState where
  | idle
  | initializing
  | calibrating
  | measuring
  | paused
  | error
  deriving DecidableEq, Repr

/-- Type SignalQuality from presage.ts.  The numeric fields are stored
after Math.round, exactly as the source stores them. -/
structure SignalQuality where
  overall : ℤ
  faceDetected : Bool
  facePositionQuality : ℤ
  lightingQuality : ℤ
  motionStability : ℤ
  recommendation : Option String
  deriving DecidableEq, Repr

/-- Constant INITIAL_SIGNAL_QUALITY from presage.ts. -/
def INITIAL_SIGNAL_QUALITY : SignalQuality :=
  { overall := 0
    faceDetected := false
    facePositionQuality := 0
    lightingQuality := 0
    motionStability := 0
    recommendation := some "Position your face in the camera frame" }

/-- Type PresageVitalsData from presage.ts (timestamp omitted, see
header). -/
structure PresageVitalsData where
  heartRate : Option ℤ
  heartRateConfidence : ℚ
  oxygenSaturation : Option ℤ
  oxygenSaturationConfidence : ℚ
  respiratoryRate : Option ℤ
  respiratoryRateConfidence : ℚ
  bloodPressure : Option (ℤ × ℤ)
  bloodPressureConfidence : ℚ
  stressLevel : Option ℤ
  hrv : Option ℤ
  hrvConfidence : ℚ
  deriving DecidableEq, Repr

/-- Events delivered through the `PresageCallbacks` record, in the order the
code invokes them. -/
inductive Event where
  | measurementStarted
  | measurementStopped
  | ready
  | qualityChanged
  | faceDetectionChanged
  | vitalsUpdated
  deriving DecidableEq, Repr

/-- The skin-tone heuristic of analyzeFrame (presage.ts lines 301-303). -/
def isSkinTone (r g b : ℚ) : Bool :=
  r > 60 && g > 40 && b > 20 && r > g && r > b && |r - g| > 15

/-- Function analyzeFrame (presage.ts lines 264-309).  The pixel averaging
over the canvas is summarized by its result: the average red, green, blue
values of the sampled region, supplied as inputs; frameAvailable false
models the early return taken when the context or the video width is
missing. -/
def analyzeFrame (frameAvailable : Bool) (r g b : ℚ) : Bool × List ℚ :=
  if frameAvailable then (isSkinTone r g b, [r, g, b])
  else (false, [])

/-- The lighting-quality expression of updateSignalQuality
(presage.ts lines 319-321), as a function of the brightness. -/
def lightingQualityOf (brightness : ℚ) : ℚ :=
  min 100 (max 0
    (if 50 < brightness ∧ brightness < 200 then
        100 - |brightness - 125| * (1/2)
     else 30))

/-- The lighting sub-score as computed from the rgbValues argument of
updateSignalQuality.  The JS destructuring of a list with fewer than three
elements yields undefined components, so brightness is NaN, both NaN
comparisons are false, and the conditional takes its 30 branch (the clamp
still applies); the wildcard case reproduces that. -/
def lightingRawOf (rgbValues : List ℚ) : ℚ :=
  match rgbValues with
  | r :: g :: b :: _ => lightingQualityOf ((r + g + b) / 3)
  | _ => min 100 (max 0 30)

/-- Function updateSignalQuality (presage.ts lines 314-358).  uMotion and
uFacePos are the two Math.random() draws.  In the source the function
mutates the closure variable signalQuality and then invokes callbacks;
here it returns the new quality value together with the list of events it
fires.  Note the face-detection-change guard compares faceDetected with
the field of the record that was just overwritten with faceDetected,
exactly as the source does. -/
def updateSignalQuality (faceDetected : Bool) (rgbValues : List ℚ)
    (uMotion uFacePos : ℚ) : SignalQuality × List Event :=
  let lightingQuality : ℚ := lightingRawOf rgbValues
  let motionStability : ℚ := 70 + uMotion * 30
  let facePositionQuality : ℚ := if faceDetected then 80 + uFacePos * 20 else 0
  let overall : ℚ :=
    if faceDetected then
      lightingQuality * (3/10) + motionStability * (3/10) + facePositionQuality * (2/5)
    else 0
  let recommendation : Option String :=
    if !faceDetected then some "Position your face in the center of the frame"
    else if lightingQuality < 50 then some "Improve lighting conditions for better accuracy"
    else if motionStability < 60 then some "Please hold still for accurate measurements"
    else none
  let q : SignalQuality :=
    { overall := jsRound overall
      faceDetected := faceDetected
      facePositionQuality := jsRound facePositionQuality
      lightingQuality := jsRound lightingQuality
      motionStability := jsRound motionStability
      recommendation := recommendation }
  let events : List Event :=
    [Event.qualityChanged] ++
      (if faceDetected ≠ q.faceDetected then [Event.faceDetectionChanged] else [])
  (q, events)

/-- The twelve Math.random() draws consumed by one call to
generateVitals, in source order. -/
structure VitalsRand where
  uHR : ℚ
  cHR : ℚ
  uSpO2 : ℚ
  cSpO2 : ℚ
  uRR : ℚ
  cRR : ℚ
  uSys : ℚ
  uDia : ℚ
  cBP : ℚ
  uStress : ℚ
  uHRV : ℚ
  cHRV : ℚ
  deriving DecidableEq, Repr

/-- Function generateVitals (presage.ts lines 364-389).  sinQ stands for
Math.sin; q is the closure variable signalQuality; frameCount is the
closure counter. -/
def generateVitals (sinQ : ℚ → ℚ) (frameCount : ℕ) (q : SignalQuality)
    (vr : VitalsRand) : PresageVitalsData :=
  let baseHR : ℚ := 72
  let hrVariance : ℚ := sinQ ((frameCount : ℚ) * (1/10)) * 5 + (vr.uHR - 1/2) * 4
  { heartRate := if q.faceDetected then some (jsRound (baseHR + hrVariance)) else none
    heartRateConfidence := if q.faceDetected then 85/100 + vr.cHR * (1/10) else 0
    oxygenSaturation := if q.faceDetected then some (96 + ⌊vr.uSpO2 * 3⌋) else none
    oxygenSaturationConfidence := if q.faceDetected then 8/10 + vr.cSpO2 * (15/100) else 0
    respiratoryRate := if q.faceDetected then some (14 + ⌊vr.uRR * 4⌋) else none
    respiratoryRateConfidence := if q.faceDetected then 75/100 + vr.cRR * (1/5) else 0
    bloodPressure := if q.faceDetected then
        some (115 + ⌊vr.uSys * 15⌋, 75 + ⌊vr.uDia * 10⌋) else none
    bloodPressureConfidence := if q.faceDetected then 7/10 + vr.cBP * (15/100) else 0
    stressLevel := if q.faceDetected then some ⌊30 + vr.uStress * 40⌋ else none
    hrv := if q.faceDetected then some ⌊40 + vr.uHRV * 30⌋ else none
    hrvConfidence := if q.faceDetected then 65/100 + vr.cHRV * (1/5) else 0 }

/-- The mutable closure state of startPresageMeasurement: state,
frameCount, calibrationComplete, measurementInterval, latestVitals,
signalQuality.  Here measurementInterval records whether the handle
variable currently holds a timer; activeTimers counts every interval
currently scheduled, including timers whose handle was overwritten by a
second setInterval and which therefore can never be cleared. -/
structure SessionSt where
  state : MeasurementState
  frameCount : ℕ
  calibrationComplete : Bool
  measurementInterval : Bool
  activeTimers : ℕ
  latestVitals : Option PresageVitalsData
  signalQuality : SignalQuality
  deriving DecidableEq, Repr

/-- The closure state right after the local declarations of
startPresageMeasurement (presage.ts lines 249-254) run. -/
def initialSessionSt : SessionSt :=
  { state := MeasurementState.initializing
    frameCount := 0
    calibrationComplete := false
    measurementInterval := false
    activeTimers := 0
    latestVitals := none
    signalQuality := INITIAL_SIGNAL_QUALITY }

/-- The per-tick inputs: frame availability, the sampled RGB averages, and
the random draws consumed during the tick. -/
structure TickInput where
  frameAvailable : Bool
  r : ℚ
  g : ℚ
  b : ℚ
  uMotion : ℚ
  uFacePos : ℚ
  vr : VitalsRand
  deriving DecidableEq, Repr

/-- Function measurementLoop (presage.ts lines 394-416): one timer tick.
Returns the updated closure state and the events fired during the tick. -/
def measurementLoop (sinQ : ℚ → ℚ) (inp : TickInput) (s : SessionSt) :
    SessionSt × List Event :=
  let s1 : SessionSt := { s with frameCount := s.frameCount + 1 }
  let fr := analyzeFrame inp.frameAvailable inp.r inp.g inp.b
  let qe := updateSignalQuality fr.1 fr.2 inp.uMotion inp.uFacePos
  let s2 : SessionSt := { s1 with signalQuality := qe.1 }
  if ¬s2.calibrationComplete ∧ s2.frameCount < 3 then
    ({ s2 with state := MeasurementState.calibrating }, qe.2)
  else
    let p3 : SessionSt × List Event :=
      if ¬s2.calibrationComplete then
        ({ s2 with calibrationComplete := true, state := MeasurementState.measuring },
         qe.2 ++ [Event.ready])
      else (s2, qe.2)
    if p3.1.state = MeasurementState.measuring ∧ p3.1.signalQuality.faceDetected then
      let v := generateVitals sinQ p3.1.frameCount p3.1.signalQuality inp.vr
      ({ p3.1 with latestVitals := some v }, p3.2 ++ [Event.vitalsUpdated])
    else p3

/-- Function start (presage.ts lines 421-432). -/
def start (s : SessionSt) : SessionSt × List Event :=
  if s.state = MeasurementState.measuring then (s, [])
  else
    ({ s with state := MeasurementState.calibrating
              frameCount := 0
              calibrationComplete := false
              measurementInterval := true
              activeTimers := s.activeTimers + 1 },
     [Event.measurementStarted])

/-- Function pause (presage.ts lines 437-443). -/
def pause (s : SessionSt) : SessionSt × List Event :=
  let s1 :=
    if s.measurementInterval then
      { s with measurementInterval := false, activeTimers := s.activeTimers - 1 }
    else s
  ({ s1 with state := MeasurementState.paused }, [])

/-- Function resume (presage.ts lines 448-452). -/
def resume (s : SessionSt) : SessionSt × List Event :=
  if s.state ≠ MeasurementState.paused then (s, [])
  else
    ({ s with state := MeasurementState.measuring
              measurementInterval := true
              activeTimers := s.activeTimers + 1 },
     [])

/-- Function stop (presage.ts lines 457-464).  Note the onMeasurementStop
callback is invoked unconditionally. -/
def stop (s : SessionSt) : SessionSt × List Event :=
  let s1 :=
    if s.measurementInterval then
      { s with measurementInterval := false, activeTimers := s.activeTimers - 1 }
    else s
  ({ s1 with state := MeasurementState.idle }, [Event.measurementStopped])

/-- The PresageSession object literal (presage.ts lines 467-477).  Its
state field is a one-time copy of the closure variable made when the
object literal is evaluated; later assignments to the closure variable do
not update it. -/
structure PresageSessionObj where
  sessionId : String
  stateField : MeasurementState
  deriving DecidableEq, Repr

/-- Function startPresageMeasurement (presage.ts lines 233-483) after the
API-key check succeeds: set up the closure state, build the session object
(copying the current value of the state variable into its state field),
then auto-start.  Returns the object, the closure state after the
auto-start, and the events. -/
def startPresageMeasurement (sessionId : String) :
    PresageSessionObj × SessionSt × List Event :=
  let s0 := initialSessionSt
  let obj : PresageSessionObj := { sessionId := sessionId, stateField := s0.state }
  let (s1, evs) := start s0
  (obj, s1, evs)

/-- Iterate measurementLoop over a list of tick inputs, accumulating
events. -/
def runTicks (sinQ : ℚ → ℚ) (inps : List TickInput) (s : SessionSt) :
    SessionSt × List Event :=
  match inps with
  | [] => (s, [])
  | inp :: rest =>
    let p1 := measurementLoop sinQ inp s
    let p2 := runTicks sinQ rest p1.1
    (p2.1, p1.2 ++ p2.2)

/-- Status categories used by the VitalMonitor presentation helpers. -/
inductive VitalStatus where
  | normal
  | warning
  | critical
  | unknown
  deriving DecidableEq, Repr

/-- Function getHeartRateStatus (VitalMonitor.tsx lines 310-315). -/
def getHeartRateStatus (hr : Option ℤ) : VitalStatus :=
  match hr with
  | none => VitalStatus.unknown
  | some v =>
    if v < 50 ∨ v > 120 then VitalStatus.critical
    else if v < 60 ∨ v > 100 then VitalStatus.warning
    else VitalStatus.normal

/-- Helper: updateSignalQuality always fires exactly the quality-changed
callback.  The face-detection-changed guard compares the new faceDetected
against the record just overwritten with it, so it can never fire. -/
theorem updateSignalQuality_snd (f : Bool) (rgb : List ℚ) (u1 u2 : ℚ) :
    (updateSignalQuality f rgb u1 u2).2 = [Event.qualityChanged] := by
  simp [updateSignalQuality]

/-- C1: the quality-changed notification does fire on every tick, but the
face-detection-changed notification never fires at all — in particular not
on the first tick where a face becomes detected (frame averages r=80, g=50,
b=30 are skin-tone positive while the initial quality has faceDetected =
false, yet the first tick after start fires only the quality-changed
event).  The source guard compares the newly computed faceDetected with the
already-overwritten signalQuality.faceDetected, so the claimed on-transition
firing never happens. -/
theorem C1_face_detection_change_never_fires :
    (∀ (f : Bool) (rgb : List ℚ) (u1 u2 : ℚ),
      Event.qualityChanged ∈ (updateSignalQuality f rgb u1 u2).2 ∧
      Event.faceDetectionChanged ∉ (updateSignalQuality f rgb u1 u2).2) ∧
    isSkinTone 80 50 30 = true ∧
    initialSessionSt.signalQuality.faceDetected = false ∧
    (measurementLoop (fun _ => 0) ⟨true, 80, 50, 30, 0, 0, ⟨0,0,0,0,0,0,0,0,0,0,0,0⟩⟩
        (start initialSessionSt).1).2 = [Event.qualityChanged] := by
  refine ⟨fun f rgb u1 u2 => ?_, by norm_num [isSkinTone], rfl, ?_⟩
  · rw [updateSignalQuality_snd]
    simp
  · simp [measurementLoop, start, initialSessionSt, updateSignalQuality_snd]

/-- C2: calling stop twice fires the measurement-stopped notification on
both calls (two events, not one), though the state does end idle; and
calling start twice schedules a second interval while the first is still
running, so two timers are active afterwards. -/
theorem C2_double_stop_double_start :
    ((stop (start initialSessionSt).1).2 ++
        (stop (stop (start initialSessionSt).1).1).2).count Event.measurementStopped = 2 ∧
    (stop (stop (start initialSessionSt).1).1).1.state = MeasurementState.idle ∧
    (start (start initialSessionSt).1).1.activeTimers = 2 := by decide

/-- C3 counterexample: a heart rate of exactly 50 maps to warning, not to
critical as the claim states (the critical test is strict: hr < 50). -/
theorem C3_counterexample_hr50 :
    getHeartRateStatus (some 50) = VitalStatus.warning ∧
    ¬ getHeartRateStatus (some 50) = VitalStatus.critical := by decide

/-- C3 as amended: heart-rate boundary mapping with 50 in the warning band
(critical requires hr < 50, e.g. 49): 49 critical, 50 warning, 59 warning,
60 normal, 100 normal, 101 warning, 120 warning, 121 critical, absent
unknown. -/
theorem C3_boundary_mapping :
    getHeartRateStatus (some 49) = VitalStatus.critical ∧
    getHeartRateStatus (some 50) = VitalStatus.warning ∧
    getHeartRateStatus (some 59) = VitalStatus.warning ∧
    getHeartRateStatus (some 60) = VitalStatus.normal ∧
    getHeartRateStatus (some 100) = VitalStatus.normal ∧
    getHeartRateStatus (some 101) = VitalStatus.warning ∧
    getHeartRateStatus (some 120) = VitalStatus.warning ∧
    getHeartRateStatus (some 121) = VitalStatus.critical ∧
    getHeartRateStatus none = VitalStatus.unknown := by decide

/-- Helper: one calibration-phase tick (calibration incomplete, incremented
frame count still below 3) leaves the state calibrating, the calibration
incomplete, and fires only the quality-changed event. -/
theorem measurementLoop_calibrating_step (sinQ : ℚ → ℚ) (inp : TickInput) (s : SessionSt)
    (hc : s.calibrationComplete = false) (hf : s.frameCount + 1 < 3) :
    (measurementLoop sinQ inp s).1.state = MeasurementState.calibrating ∧
    (measurementLoop sinQ inp s).1.frameCount = s.frameCount + 1 ∧
    (measurementLoop sinQ inp s).1.calibrationComplete = false ∧
    (measurementLoop sinQ inp s).2 = [Event.qualityChanged] := by
  simp [measurementLoop, hc, hf, updateSignalQuality_snd]

/-- Helper: the tick on which the incremented frame count reaches 3 with
calibration still incomplete completes calibration, moves the state to
measuring, and fires the ready event exactly once. -/
theorem measurementLoop_finish_calibration (sinQ : ℚ → ℚ) (inp : TickInput) (s : SessionSt)
    (hc : s.calibrationComplete = false) (hf : ¬ s.frameCount + 1 < 3) :
    (measurementLoop sinQ inp s).1.state = MeasurementState.measuring ∧
    (measurementLoop sinQ inp s).1.calibrationComplete = true ∧
    (measurementLoop sinQ inp s).2.count Event.ready = 1 := by
  simp only [measurementLoop, hc, hf, updateSignalQuality_snd]
  split_ifs <;> simp_all [updateSignalQuality_snd, List.count_append]

/-- Helper: once calibration is complete and the session is measuring, a
tick keeps it measuring, keeps the calibration complete, and fires no ready
event. -/
theorem measurementLoop_measuring_inv (sinQ : ℚ → ℚ) (inp : TickInput) (s : SessionSt)
    (hc : s.calibrationComplete = true) (hs : s.state = MeasurementState.measuring) :
    (measurementLoop sinQ inp s).1.state = MeasurementState.measuring ∧
    (measurementLoop sinQ inp s).1.calibrationComplete = true ∧
    (measurementLoop sinQ inp s).2.count Event.ready = 0 := by
  simp only [measurementLoop, hc, hs, updateSignalQuality_snd]
  split_ifs <;> simp_all [updateSignalQuality_snd, List.count_append]

/-- Helper: any run of ticks from a measuring, calibration-complete state
stays measuring and fires no ready event. -/
theorem runTicks_measuring_inv (sinQ : ℚ → ℚ) (inps : List TickInput) (s : SessionSt)
    (hc : s.calibrationComplete = true) (hs : s.state = MeasurementState.measuring) :
    (runTicks sinQ inps s).1.state = MeasurementState.measuring ∧
    (runTicks sinQ inps s).1.calibrationComplete = true ∧
    (runTicks sinQ inps s).2.count Event.ready = 0 := by
  induction inps generalizing s with
  | nil => simpa [runTicks] using ⟨hs, hc⟩
  | cons inp rest ih =>
    have h1 := measurementLoop_measuring_inv sinQ inp s hc hs
    have h2 := ih (measurementLoop sinQ inp s).1 h1.2.1 h1.1
    refine ⟨?_, ?_, ?_⟩
    · simpa [runTicks] using h2.1
    · simpa [runTicks] using h2.2.1
    · simp [runTicks, List.count_append, h1.2.2, h2.2.2]

/-- C4: after start the session is in calibrating; it is still calibrating
after ticks 1 and 2 with no ready event, on tick 3 (the calibration-tick
constant) it transitions to measuring with the ready event fired exactly
once, and over any longer run of ticks it remains measuring and ready never
fires again — so calibrating is passed through exactly once. -/
theorem C4_calibration_three_ticks (sinQ : ℚ → ℚ) (i1 i2 i3 : TickInput)
    (rest : List TickInput) :
    (start initialSessionSt).1.state = MeasurementState.calibrating ∧
    (runTicks sinQ [i1] (start initialSessionSt).1).1.state = MeasurementState.calibrating ∧
    (runTicks sinQ [i1] (start initialSessionSt).1).2.count Event.ready = 0 ∧
    (runTicks sinQ [i1, i2] (start initialSessionSt).1).1.state = MeasurementState.calibrating ∧
    (runTicks sinQ [i1, i2] (start initialSessionSt).1).2.count Event.ready = 0 ∧
    (runTicks sinQ [i1, i2, i3] (start initialSessionSt).1).1.state = MeasurementState.measuring ∧
    (runTicks sinQ [i1, i2, i3] (start initialSessionSt).1).2.count Event.ready = 1 ∧
    (runTicks sinQ (i1 :: i2 :: i3 :: rest) (start initialSessionSt).1).1.state =
      MeasurementState.measuring ∧
    (runTicks sinQ (i1 :: i2 :: i3 :: rest) (start initialSessionSt).1).2.count Event.ready = 1 := by
  have hs0 : (start initialSessionSt).1.state = MeasurementState.calibrating := by
    simp [start, initialSessionSt]
  have hc0 : (start initialSessionSt).1.calibrationComplete = false := by
    simp [start, initialSessionSt]
  have hf0 : (start initialSessionSt).1.frameCount = 0 := by
    simp [start, initialSessionSt]
  have t1 := measurementLoop_calibrating_step sinQ i1 (start initialSessionSt).1 hc0
    (by rw [hf0]; norm_num)
  have t2 := measurementLoop_calibrating_step sinQ i2 _ t1.2.2.1
    (by rw [t1.2.1, hf0]; norm_num)
  have t3 := measurementLoop_finish_calibration sinQ i3 _ t2.2.2.1
    (by rw [t2.2.1, t1.2.1, hf0]; norm_num)
  have tr := runTicks_measuring_inv sinQ rest _ t3.2.1 t3.1
  refine ⟨hs0, ?_, ?_, ?_, ?_, ?_, ?_, ?_, ?_⟩ <;>
    simp [runTicks, List.count_append, t1.1, t1.2.2.2, t2.1, t2.2.2.2, t3.1, t3.2.2,
      tr.1, tr.2.2]

/-- C5: the state field of the session object returned by
startPresageMeasurement is a stale copy — it still reads initializing after
the auto-start has moved the session to calibrating, so reading it does not
yield the session's current state. -/
theorem C5_session_state_field_stale :
    (startPresageMeasurement "presage-1").1.stateField = MeasurementState.initializing ∧
    (startPresageMeasurement "presage-1").2.1.state = MeasurementState.calibrating ∧
    (startPresageMeasurement "presage-1").1.stateField ≠
      (startPresageMeasurement "presage-1").2.1.state := by decide

/-- C6: the signal quality computed on a tick has overall = 0 and
facePositionQuality = 0 when no face is detected, and otherwise overall is
the rounded weighted blend of the three raw sub-scores with weights 0.3
lighting, 0.3 motion, 0.4 face position. -/
theorem C6_overall_weighted_blend (rgb : List ℚ) (uMotion uFacePos : ℚ) :
    (updateSignalQuality false rgb uMotion uFacePos).1.overall = 0 ∧
    (updateSignalQuality false rgb uMotion uFacePos).1.facePositionQuality = 0 ∧
    (updateSignalQuality true rgb uMotion uFacePos).1.overall =
      jsRound (lightingRawOf rgb * (3/10) + (70 + uMotion * 30) * (3/10) +
        (80 + uFacePos * 20) * (2/5)) := by
  refine ⟨?_, ?_, ?_⟩ <;> norm_num [updateSignalQuality, jsRound]

/-- C7: lightingQuality equals the clamp to the interval from 0 to 100 of
100 minus half the distance of the brightness from 125 when the brightness
lies strictly between 50 and 200 (the clamp is inactive there, giving the
two linear pieces meeting at the maximum of 100 at brightness 125), and
equals the flat value 30 outside that open interval. -/
theorem C7_lighting_piecewise (b : ℚ) :
    (50 < b → b < 200 →
      lightingQualityOf b = min 100 (max 0 (100 - |b - 125| * (1/2)))) ∧
    (50 < b → b ≤ 125 → lightingQualityOf b = 100 - (125 - b) * (1/2)) ∧
    (125 ≤ b → b < 200 → lightingQualityOf b = 100 - (b - 125) * (1/2)) ∧
    (¬ (50 < b ∧ b < 200) → lightingQualityOf b = 30) ∧
    lightingQualityOf 125 = 100 ∧
    lightingQualityOf b ≤ 100 := by
  refine ⟨?_, ?_, ?_, ?_, ?_, ?_⟩
  · intro h1 h2
    rw [lightingQualityOf, if_pos ⟨h1, h2⟩]
  · intro h1 h2
    rw [lightingQualityOf, if_pos ⟨h1, lt_of_le_of_lt h2 (by norm_num)⟩,
      abs_of_nonpos (by linarith), max_eq_right (by linarith), min_eq_right (by linarith)]
    ring
  · intro h1 h2
    rw [lightingQualityOf, if_pos ⟨lt_of_lt_of_le (by norm_num) h1, h2⟩,
      abs_of_nonneg (by linarith), max_eq_right (by linarith), min_eq_right (by linarith)]
  · intro h
    rw [lightingQualityOf, if_neg h]
    norm_num
  · norm_num [lightingQualityOf]
  · rw [lightingQualityOf]
    exact min_le_left _ _

/-- C7 witness: at brightness 100 the left linear piece applies. -/
theorem C7_lighting_witness :
    ((50:ℚ) < 100 ∧ (100:ℚ) ≤ 125) ∧
    lightingQualityOf 100 = 100 - (125 - 100) * (1/2) :=
  ⟨⟨by decide, by decide⟩, (C7_lighting_piecewise 100).2.1 (by decide) (by decide)⟩

/-- C8: a tick emits the vitals-updated event, or stores a new latest
vitals reading, only with the session state equal to measuring at that
moment; the control operations start, pause, resume and stop never emit
it.  Hence no vitals reading is produced while the state is idle,
initializing, calibrating or paused. -/
theorem C8_vitals_only_when_measuring (sinQ : ℚ → ℚ) (inp : TickInput) (s : SessionSt) :
    (Event.vitalsUpdated ∉ (measurementLoop sinQ inp s).2 ∨
      (measurementLoop sinQ inp s).1.state = MeasurementState.measuring) ∧
    ((measurementLoop sinQ inp s).1.latestVitals = s.latestVitals ∨
      (measurementLoop sinQ inp s).1.state = MeasurementState.measuring) ∧
    Event.vitalsUpdated ∉ (start s).2 ∧
    Event.vitalsUpdated ∉ (pause s).2 ∧
    Event.vitalsUpdated ∉ (resume s).2 ∧
    Event.vitalsUpdated ∉ (stop s).2 := by
  refine ⟨?_, ?_, ?_, ?_, ?_, ?_⟩
  · simp only [measurementLoop]
    split_ifs with h1 h2 h3 <;> simp_all [updateSignalQuality_snd]
  · simp only [measurementLoop]
    split_ifs with h1 h2 h3 <;> simp_all
  · simp [start]
    split_ifs <;> simp
  · simp [pause]
  · simp [resume]
    split_ifs <;> simp
  · simp [stop]

/-- C9: generateVitals with faceDetected false yields every metric field
absent (heart rate, SpO2, respiratory rate, blood pressure, stress level,
HRV) and every confidence equal to 0, so non-absent values appear only when
a face is detected. -/
theorem C9_vitals_gated_on_face (sinQ : ℚ → ℚ) (n : ℕ) (q : SignalQuality)
    (vr : VitalsRand) (h : q.faceDetected = false) :
    (generateVitals sinQ n q vr).heartRate = none ∧
    (generateVitals sinQ n q vr).heartRateConfidence = 0 ∧
    (generateVitals sinQ n q vr).oxygenSaturation = none ∧
    (generateVitals sinQ n q vr).oxygenSaturationConfidence = 0 ∧
    (generateVitals sinQ n q vr).respiratoryRate = none ∧
    (generateVitals sinQ n q vr).respiratoryRateConfidence = 0 ∧
    (generateVitals sinQ n q vr).bloodPressure = none ∧
    (generateVitals sinQ n q vr).bloodPressureConfidence = 0 ∧
    (generateVitals sinQ n q vr).stressLevel = none ∧
    (generateVitals sinQ n q vr).hrv = none ∧
    (generateVitals sinQ n q vr).hrvConfidence = 0 := by
  simp [generateVitals, h]

/-- C9 witness: the initial signal quality has no face detected and the
generated heart rate is then absent. -/
theorem C9_witness :
    INITIAL_SIGNAL_QUALITY.faceDetected = false ∧
    (generateVitals (fun _ => 0) 0 INITIAL_SIGNAL_QUALITY
      ⟨0,0,0,0,0,0,0,0,0,0,0,0⟩).heartRate = none :=
  ⟨rfl, (C9_vitals_gated_on_face (fun _ => 0) 0 INITIAL_SIGNAL_QUALITY
      ⟨0,0,0,0,0,0,0,0,0,0,0,0⟩ rfl).1⟩

/-- C10: with the motion random draw in the unit interval, motionStability
lies in the interval from 70 inclusive to 100 exclusive, so the hold-still
recommendation branch (motionStability below 60) is unreachable and the
recommendation is always absent, the position-face message, or the
improve-lighting message. -/
theorem C10_hold_still_unreachable (f : Bool) (rgb : List ℚ) (uMotion uFacePos : ℚ)
    (h0 : 0 ≤ uMotion) (h1 : uMotion < 1) :
    (70 ≤ 70 + uMotion * 30 ∧ 70 + uMotion * 30 < 100) ∧
    (updateSignalQuality f rgb uMotion uFacePos).1.recommendation ≠
      some "Please hold still for accurate measurements" ∧
    ((updateSignalQuality f rgb uMotion uFacePos).1.recommendation = none ∨
     (updateSignalQuality f rgb uMotion uFacePos).1.recommendation =
       some "Position your face in the center of the frame" ∨
     (updateSignalQuality f rgb uMotion uFacePos).1.recommendation =
       some "Improve lighting conditions for better accuracy") := by
  have hm : ¬ (70 + uMotion * 30 < 60) := by nlinarith
  refine ⟨⟨by nlinarith, by nlinarith⟩, ?_, ?_⟩ <;>
  · simp only [updateSignalQuality]
    cases f <;> simp <;> split_ifs <;> simp_all

/-- C10 witness: the motion draw 0 satisfies the unit-interval contract and
the hold-still recommendation is not produced. -/
theorem C10_witness :
    (0:ℚ) ≤ 0 ∧ (0:ℚ) < 1 ∧
    (updateSignalQuality true [125, 125, 125] 0 0).1.recommendation ≠
      some "Please hold still for accurate measurements" :=
  ⟨by decide, by decide,
   (C10_hold_still_unreachable true [125, 125, 125] 0 0 (by decide) (by decide)).2.1⟩
